import Mathlib

/-
Verification of the priority-based request/event dispatch core of the
Siera repository: the Cortex Executive (src/cortex_executive.py), the
Event Bus (src/event_bus.py) and the Voice Cortex (src/voice_cortex.py).
The Python code is shallowly embedded: enum classes become inductive
types, dataclasses become structures, the mutable singleton state
becomes explicit state passing, and the CPython heapq algorithms that
back queue.PriorityQueue are translated function by function so that
dequeue ordering can be settled exactly.
-/

/-- Processing priority levels of the cortex executive
(class CortexPriority, src/cortex_executive.py lines 31-37). -/
inductive CortexPriority where
  | CRISIS
  | URGENT
  | HIGH
  | NORMAL
  | LOW
deriving DecidableEq, Inhabited, Repr

/-- Numeric value of each CortexPriority member (CRISIS = 1 ... LOW = 5). -/
def CortexPriority.val : CortexPriority → Nat
  | .CRISIS => 1
  | .URGENT => 2
  | .HIGH => 3
  | .NORMAL => 4
  | .LOW => 5

/-- Operating modes of the cortex executive
(class CortexMode, src/cortex_executive.py lines 40-47). -/
inductive CortexMode where
  | CRISIS
  | SAFETY_PLANNING
  | EMOTIONAL_SUPPORT
  | RESOURCE_DELIVERY
  | LEARNING
  | MAINTENANCE
deriving DecidableEq, Inhabited, Repr

/-- Request to the cortex (dataclass CortexRequest, src/cortex_executive.py
lines 50-68).  The payload dict is modelled as an association list of
strings; the optional callback is modelled by its presence
(Option Unit), since only whether it is supplied matters to the
dispatcher; the wall-clock timestamp is a Nat supplied by the caller. -/
structure CortexRequest where
  request_id : String
  priority : CortexPriority
  mode : CortexMode
  content : List (String × String)
  callback : Option Unit
  timestamp : Nat
deriving DecidableEq, Inhabited, Repr

/-- CortexRequest.__lt__ (src/cortex_executive.py lines 64-68): compare by
priority value, then by timestamp. -/
def cortexLt (a b : CortexRequest) : Bool :=
  if a.priority.val ≠ b.priority.val then
    decide (a.priority.val < b.priority.val)
  else
    decide (a.timestamp < b.timestamp)

/-
CPython heapq embedding.  queue.PriorityQueue stores its entries in a
list managed by heapq.heappush / heapq.heappop; the four functions below
are direct translations of the CPython functions _siftdown, _siftup, heappush and
heappop, with the in-place index assignments rendered as List.set.  The
loop in _siftdown strictly decreases pos and the loop in _siftup
strictly increases pos below endpos, so a fuel of the heap length is
always sufficient; the callers pass exactly that.
-/

/-- Loop body of heapq._siftdown: move parents down while the new item
sorts strictly below them, then place the new item. -/
def siftdownAux [Inhabited α] (lt : α → α → Bool) (startpos : Nat) (newitem : α) :
    Nat → List α → Nat → List α
  | 0, heap, pos => heap.set pos newitem
  | fuel + 1, heap, pos =>
    if startpos < pos then
      let parentpos := (pos - 1) / 2
      let parent := heap.getD parentpos default
      if lt newitem parent then
        siftdownAux lt startpos newitem fuel (heap.set pos parent) parentpos
      else
        heap.set pos newitem
    else
      heap.set pos newitem

/-- heapq._siftdown(heap, startpos, pos). -/
def siftdown [Inhabited α] (lt : α → α → Bool) (heap : List α) (startpos pos : Nat) :
    List α :=
  siftdownAux lt startpos (heap.getD pos default) heap.length heap pos

/-- Loop body of heapq._siftup: bubble the smaller child up until a leaf
is reached, returning the heap and the final position. -/
def siftupAux [Inhabited α] (lt : α → α → Bool) (endpos : Nat) :
    Nat → List α → Nat → List α × Nat
  | 0, heap, pos => (heap, pos)
  | fuel + 1, heap, pos =>
    let childpos := 2 * pos + 1
    if childpos < endpos then
      let rightpos := childpos + 1
      let childpos2 :=
        if rightpos < endpos && ! lt (heap.getD childpos default) (heap.getD rightpos default) then
          rightpos
        else
          childpos
      siftupAux lt endpos fuel (heap.set pos (heap.getD childpos2 default)) childpos2
    else
      (heap, pos)

/-- heapq._siftup(heap, pos): descend to a leaf, place the new item, then
sift it down towards the root. -/
def siftup [Inhabited α] (lt : α → α → Bool) (heap : List α) (pos : Nat) : List α :=
  let endpos := heap.length
  let newitem := heap.getD pos default
  let hp := siftupAux lt endpos heap.length heap pos
  siftdown lt (hp.1.set hp.2 newitem) pos hp.2

/-- heapq.heappush(heap, item). -/
def heappush [Inhabited α] (lt : α → α → Bool) (heap : List α) (item : α) : List α :=
  let h := heap ++ [item]
  siftdown lt h 0 (h.length - 1)

/-- heapq.heappop(heap): returns the popped minimum and the remaining
heap, or none on an empty heap. -/
def heappop [Inhabited α] (lt : α → α → Bool) (heap : List α) :
    Option (α × List α) :=
  match heap.getLast? with
  | none => none
  | some lastelt =>
    let h := heap.dropLast
    match h with
    | [] => some (lastelt, [])
    | x :: _ => some (x, siftup lt (h.set 0 lastelt) 0)

/-- Push a list of items onto a heap in order. -/
def pushAll [Inhabited α] (lt : α → α → Bool) (heap : List α) (items : List α) : List α :=
  items.foldl (heappush lt) heap

/-- Pop up to fuel items off a heap, in heap order. -/
def popAll [Inhabited α] (lt : α → α → Bool) : Nat → List α → List α
  | 0, _ => []
  | fuel + 1, heap =>
    match heappop lt heap with
    | none => []
    | some (x, h2) => x :: popAll lt fuel h2

/-- Equal-priority request with a fixed timestamp, as produced when
time.time() collides at clock resolution. -/
def tiedRequest (id : String) : CortexRequest :=
  { request_id := id
    priority := CortexPriority.NORMAL
    mode := CortexMode.EMOTIONAL_SUPPORT
    content := []
    callback := none
    timestamp := 100 }

/-- Result data returned by a mode handler (a Dict[str, Any] in Python);
only the plain entries and the modules_used list are relevant to the
dispatcher, which reads modules_used when building the response. -/
structure HandlerData where
  entries : List (String × String)
  modules_used : List String
deriving DecidableEq, Inhabited, Repr

/-- Outcome of calling a mode handler: a result dict, or a raised
exception carrying a message. -/
inductive HandlerResult where
  | ok (data : HandlerData)
  | raises (msg : String)
deriving DecidableEq, Inhabited, Repr

/-- Response from the cortex (dataclass CortexResponse,
src/cortex_executive.py lines 71-83).  processing_time is the elapsed
wall-clock time, supplied by the environment as a Nat. -/
structure CortexResponse where
  request_id : String
  success : Bool
  data : HandlerData
  processing_time : Nat
  modules_involved : List String
deriving DecidableEq, Inhabited, Repr

/-- Mutable state of the SierraCortexExecutive singleton
(src/cortex_executive.py lines 124-163).  The PriorityQueue is its
backing heap list; the survivor_context dict is flattened into the
crisis_active and total_interactions fields used by the dispatcher. -/
structure CortexState where
  request_queue : List CortexRequest
  current_mode : CortexMode
  is_processing : Bool
  current_request : Option CortexRequest
  crisis_active : Bool
  total_interactions : Nat
  total_requests : Nat
  crisis_interventions : Nat
  mode_switches : Nat
  processing_active : Bool
deriving DecidableEq, Inhabited, Repr

/-- State set up by SierraCortexExecutive.__init__
(src/cortex_executive.py lines 124-163). -/
def initCortexState : CortexState :=
  { request_queue := []
    current_mode := CortexMode.EMOTIONAL_SUPPORT
    is_processing := false
    current_request := none
    crisis_active := false
    total_interactions := 0
    total_requests := 0
    crisis_interventions := 0
    mode_switches := 0
    processing_active := true }

/-- SierraCortexExecutive._interrupt_current (src/cortex_executive.py
lines 503-506): log and clear the is_processing flag. -/
def interrupt_current (s : CortexState) : CortexState :=
  { s with is_processing := false }

/-- SierraCortexExecutive.submit_request (src/cortex_executive.py lines
187-235): build the request, apply the CRISIS preemption rule, put the
request on the priority queue and return True. -/
def submit_request (s : CortexState) (req : CortexRequest) : CortexState × Bool :=
  let s1 :=
    if req.priority = CortexPriority.CRISIS then
      let s2 :=
        match s.is_processing, s.current_request with
        | true, some c =>
          if c.priority ≠ CortexPriority.CRISIS then
            let si := interrupt_current s
            { si with crisis_interventions := si.crisis_interventions + 1 }
          else s
        | _, _ => s
      { s2 with crisis_active := true }
    else s
  ({ s1 with request_queue := heappush cortexLt s1.request_queue req
             total_requests := s1.total_requests + 1 }, true)

/-- SierraCortexExecutive._process_request (src/cortex_executive.py lines
255-297).  The handler table (self._get_handler) is a parameter; its
outcome is a HandlerResult, raised exceptions being the raises case.
The returned Option CortexResponse is the value delivered to the
request callback: none when no callback was supplied or when the try
block raised (the except clause only logs; the finally clause clears
the in-flight flags either way). -/
def process_request (s : CortexState) (req : CortexRequest)
    (handlers : CortexMode → CortexRequest → HandlerResult) (elapsed : Nat) :
    CortexState × Option CortexResponse :=
  let s1 := { s with is_processing := true, current_request := some req }
  let s2 :=
    if req.mode ≠ s1.current_mode then
      { s1 with current_mode := req.mode, mode_switches := s1.mode_switches + 1 }
    else s1
  match handlers req.mode req with
  | HandlerResult.raises _ =>
    ({ s2 with is_processing := false, current_request := none }, none)
  | HandlerResult.ok d =>
    let response : CortexResponse :=
      { request_id := req.request_id
        success := true
        data := d
        processing_time := elapsed
        modules_involved := d.modules_used }
    let delivered := if req.callback.isSome then some response else none
    ({ s2 with total_interactions := s2.total_interactions + 1
               is_processing := false
               current_request := none }, delivered)

/-- One iteration of the worker loop SierraCortexExecutive._process_queue
(src/cortex_executive.py lines 237-253): while processing_active, get
the next request off the priority queue and process it; when the flag
is cleared the loop exits and nothing more is dequeued. -/
def worker_step (handlers : CortexMode → CortexRequest → HandlerResult) (elapsed : Nat)
    (s : CortexState) : CortexState :=
  if s.processing_active then
    match heappop cortexLt s.request_queue with
    | none => s
    | some (req, q2) =>
      (process_request { s with request_queue := q2 } req handlers elapsed).1
  else s

/-- SierraCortexExecutive.shutdown (src/cortex_executive.py lines
540-556): clear processing_active and drain the queue. -/
def cortexShutdown (s : CortexState) : CortexState :=
  { s with processing_active := false, request_queue := [] }

/-- Event priority levels of the event bus
(class EventPriority, src/event_bus.py lines 40-45). -/
inductive EventPriority where
  | CRITICAL
  | HIGH
  | NORMAL
  | LOW
deriving DecidableEq, Inhabited, Repr

/-- Numeric value of each EventPriority member (CRITICAL = 1 ... LOW = 4). -/
def EventPriority.val : EventPriority → Nat
  | .CRITICAL => 1
  | .HIGH => 2
  | .NORMAL => 3
  | .LOW => 4

/-- Event published to the bus (dataclass Event, src/event_bus.py lines
48-74).  The uuid4 event_id and the creation timestamp are supplied by
the caller of publish, which is where the environment produces them. -/
structure Event where
  event_type : String
  priority : EventPriority
  source_module : String
  data : List (String × String)
  timestamp : Nat
  event_id : String
  correlation_id : Option String
deriving DecidableEq, Inhabited, Repr

/-- Subscription to an event type (dataclass Subscription,
src/event_bus.py lines 77-91).  The Python callback is modelled as a
function that either returns or raises (Except.error). -/
structure Subscription where
  event_type : String
  callback : Event → Except String Unit
  subscriber_id : String
  priority_filter : Option EventPriority

/-- Subscription table of the bus: the Python dict mapping event_type to
its list of subscriptions, as an association list with unique keys. -/
abbrev SubMap : Type := List (String × List Subscription)

/-- Dict lookup on the subscription table. -/
def lookup : SubMap → String → Option (List Subscription)
  | [], _ => none
  | (k0, v0) :: rest, k => if k0 = k then some v0 else lookup rest k

/-- Dict assignment on the subscription table: replace the entry for the
key, or append a fresh entry when the key is absent. -/
def setKey : SubMap → String → List Subscription → SubMap
  | [], k, v => [(k, v)]
  | (k0, v0) :: rest, k, v =>
    if k0 = k then (k, v) :: setKey rest k v else (k0, v0) :: setKey rest k v

/-- Dict deletion on the subscription table. -/
def delKey : SubMap → String → SubMap
  | [], _ => []
  | (k0, v0) :: rest, k =>
    if k0 = k then delKey rest k else (k0, v0) :: delKey rest k

/-- Mutable state of the SierraEventBus singleton
(src/event_bus.py lines 130-158). -/
structure BusState where
  event_queue : List Event
  subscriptions : SubMap
  event_history : List Event
  max_history : Nat
  total_events_published : Nat
  total_events_processed : Nat
  critical_events : Nat
  processing_active : Bool

/-- State set up by SierraEventBus.__init__ (src/event_bus.py lines
130-158), with max_history = 1000. -/
def initBusState : BusState :=
  { event_queue := []
    subscriptions := []
    event_history := []
    max_history := 1000
    total_events_published := 0
    total_events_processed := 0
    critical_events := 0
    processing_active := true }

/-- SierraEventBus.publish (src/event_bus.py lines 163-207): build the
event, put it on the queue, bump the statistics and return the event
id.  The timestamp and the fresh uuid are inputs from the environment. -/
def publish (s : BusState) (event_type source_module : String)
    (data : List (String × String)) (priority : EventPriority)
    (correlation_id : Option String) (ts : Nat) (uuid : String) :
    BusState × String :=
  let event : Event :=
    { event_type := event_type
      priority := priority
      source_module := source_module
      data := data
      timestamp := ts
      event_id := uuid
      correlation_id := correlation_id }
  ({ s with event_queue := s.event_queue ++ [event]
            total_events_published := s.total_events_published + 1
            critical_events :=
              if priority = EventPriority.CRITICAL then s.critical_events + 1
              else s.critical_events },
   event.event_id)

/-- SierraEventBus.subscribe (src/event_bus.py lines 209-250): create the
Subscription, append it to the list for its event type (creating the
list when the type is new) and return True. -/
def subscribe (m : SubMap) (event_type : String)
    (callback : Event → Except String Unit) (subscriber_id : String)
    (priority_filter : Option EventPriority) : SubMap × Bool :=
  let subscription : Subscription :=
    { event_type := event_type
      callback := callback
      subscriber_id := subscriber_id
      priority_filter := priority_filter }
  (setKey m event_type (((lookup m event_type).getD []) ++ [subscription]), true)

/-- SierraEventBus.unsubscribe (src/event_bus.py lines 252-284): drop all
subscriptions under the event type whose subscriber_id matches, delete
the event type key when its list becomes empty, and return True. -/
def unsubscribe (m : SubMap) (event_type subscriber_id : String) : SubMap × Bool :=
  match lookup m event_type with
  | none => (m, true)
  | some l =>
    let l2 := l.filter (fun sub => decide (sub.subscriber_id ≠ subscriber_id))
    if l2.isEmpty then (delKey m event_type, true)
    else (setKey m event_type l2, true)

/-- Call one subscriber callback, catching a raised exception
(src/event_bus.py lines 333-340): the pair records which subscription
was invoked and whether its callback returned normally. -/
def invoke (sub : Subscription) (e : Event) : Subscription × Bool :=
  (sub, match sub.callback e with
        | Except.ok _ => true
        | Except.error _ => false)

/-- Notification loop of SierraEventBus._process_event (src/event_bus.py
lines 326-340): for each gathered subscription, skip it when its
priority_filter is set and the event priority value exceeds the filter
value, otherwise invoke its callback inside the per-subscriber
try/except, and continue with the rest either way. -/
def notifySubscribers : List Subscription → Event → List (Subscription × Bool)
  | [], _ => []
  | sub :: rest, e =>
    match sub.priority_filter with
    | some f =>
      if e.priority.val > f.val then
        notifySubscribers rest e
      else
        invoke sub e :: notifySubscribers rest e
    | none => invoke sub e :: notifySubscribers rest e

/-- Subscriber gathering of SierraEventBus._process_event
(src/event_bus.py lines 314-324): the subscriptions registered for the
event type followed by the wildcard subscriptions. -/
def subscribersFor (m : SubMap) (event_type : String) : List Subscription :=
  ((lookup m event_type).getD []) ++ ((lookup m "*").getD [])

/-- History update of SierraEventBus._process_event (src/event_bus.py
lines 308-312): append the event, then pop the oldest entry when the
length exceeds max_history. -/
def recordHistory (hist : List Event) (max_history : Nat) (e : Event) : List Event :=
  let h := hist ++ [e]
  if max_history < h.length then h.tail else h

/-- SierraEventBus._process_event (src/event_bus.py lines 305-348):
record the event in the bounded history, then notify the matching and
wildcard subscribers; the second component lists the invoked
subscriptions with their callback outcomes. -/
def process_event (s : BusState) (e : Event) : BusState × List (Subscription × Bool) :=
  ({ s with event_history := recordHistory s.event_history s.max_history e },
   notifySubscribers (subscribersFor s.subscriptions e.event_type) e)

/-- Voice output priority levels (class VoicePriority,
src/voice_cortex.py lines 19-24). -/
inductive VoicePriority where
  | CRITICAL
  | HIGH
  | NORMAL
  | LOW
deriving DecidableEq, Inhabited, Repr

/-- Numeric value of each VoicePriority member (CRITICAL = 1 ... LOW = 4). -/
def VoicePriority.val : VoicePriority → Nat
  | .CRITICAL => 1
  | .HIGH => 2
  | .NORMAL => 3
  | .LOW => 4

/-- A request to speak (dataclass VoiceRequest, src/voice_cortex.py lines
27-39).  The speech rate is kept in hundredths (0.95 becomes 95) since
it never enters any comparison. -/
structure VoiceRequest where
  text : String
  priority : VoicePriority
  voice_id : String := "Joanna"
  emotion : String := "supportive"
  speed : Nat := 95
  timestamp : Nat
deriving DecidableEq, Inhabited, Repr

/-- Mutable state of the SierraVoiceCortex singleton
(src/voice_cortex.py lines 70-102).  The voice queue holds the
(priority value, timestamp, request) triples that speak puts on the
PriorityQueue, in insertion order. -/
structure VoiceState where
  voice_queue : List (Nat × Nat × VoiceRequest)
  is_speaking : Bool
  current_request : Option VoiceRequest
  enabled : Bool
  total_spoken : Nat
  crisis_interruptions : Nat
  processing : Bool
deriving DecidableEq, Inhabited, Repr

/-- Whitespace test of CPython str.strip (Py_UNICODE_ISSPACE): the ASCII
whitespace characters 09-0D and 20, the separators 1C-1F, next line 85,
no-break space A0, Ogham space mark 1680, the spaces 2000-200A, line
separator 2028, paragraph separator 2029, narrow no-break space 202F,
medium mathematical space 205F and ideographic space 3000. -/
def pyIsSpace (c : Char) : Bool :=
  let n := c.toNat
  decide ((0x09 ≤ n ∧ n ≤ 0x0D) ∨ n = 0x20 ∨ (0x1C ≤ n ∧ n ≤ 0x1F) ∨
    n = 0x85 ∨ n = 0xA0 ∨ n = 0x1680 ∨ (0x2000 ≤ n ∧ n ≤ 0x200A) ∨
    n = 0x2028 ∨ n = 0x2029 ∨ n = 0x202F ∨ n = 0x205F ∨ n = 0x3000)

/-- Interruption rule inside SierraVoiceCortex.speak (src/voice_cortex.py
lines 137-142): a CRITICAL request interrupts the current speech when a
non-CRITICAL request is speaking, clearing is_speaking via
_interrupt_current and bumping crisis_interruptions. -/
def speak_interrupt (s : VoiceState) (priority : VoicePriority) : VoiceState :=
  if priority = VoicePriority.CRITICAL then
    match s.is_speaking, s.current_request with
    | true, some c =>
      if c.priority ≠ VoicePriority.CRITICAL then
        { s with is_speaking := false
                 crisis_interruptions := s.crisis_interruptions + 1 }
      else s
    | _, _ => s
  else s

/-- SierraVoiceCortex.speak (src/voice_cortex.py lines 104-147): refuse
when voice output is disabled or the text is empty or whitespace-only;
otherwise build the VoiceRequest, apply the CRITICAL interruption rule,
put the (priority value, timestamp, request) triple on the queue and
return True. -/
def speak (s : VoiceState) (text : String) (priority : VoicePriority)
    (emotion : String) (speed : Nat) (ts : Nat) : VoiceState × Bool :=
  if s.enabled = false then (s, false)
  else if text.data.all pyIsSpace then (s, false)
  else
    let request : VoiceRequest :=
      { text := text, priority := priority, emotion := emotion
        speed := speed, timestamp := ts }
    let s1 := speak_interrupt s priority
    ({ s1 with voice_queue :=
        s1.voice_queue ++ [(priority.val, request.timestamp, request)] }, true)

/-- Delivery condition applied to one subscription by the notification
loop: deliver unless a priority_filter is set and the event priority
value exceeds it. -/
def eligible (e : Event) (sub : Subscription) : Bool :=
  match sub.priority_filter with
  | some f => ! decide (e.priority.val > f.val)
  | none => true

lemma lookup_setKey_self (m : SubMap) (k : String) (v : List Subscription) :
    lookup (setKey m k v) k = some v := by
  induction m with
  | nil => simp [setKey, lookup]
  | cons p rest ih =>
    obtain ⟨k0, v0⟩ := p
    by_cases h : k0 = k
    · simp [setKey, lookup, h]
    · simp [setKey, lookup, h, ih]

lemma lookup_setKey_ne (m : SubMap) (k u : String) (v : List Subscription)
    (hne : u ≠ k) : lookup (setKey m k v) u = lookup m u := by
  induction m with
  | nil => simp [setKey, lookup, Ne.symm hne]
  | cons p rest ih =>
    obtain ⟨k0, v0⟩ := p
    by_cases h : k0 = k
    · subst h
      simp [setKey, lookup, Ne.symm hne, ih]
    · by_cases h2 : k0 = u
      · subst h2
        simp [setKey, lookup, h, hne, ih]
      · simp [setKey, lookup, h, h2, ih]

lemma lookup_delKey_self (m : SubMap) (k : String) :
    lookup (delKey m k) k = none := by
  induction m with
  | nil => simp [delKey, lookup]
  | cons p rest ih =>
    obtain ⟨k0, v0⟩ := p
    by_cases h : k0 = k
    · simp [delKey, h, ih]
    · simp [delKey, lookup, h, ih]

lemma lookup_delKey_ne (m : SubMap) (k u : String) (hne : u ≠ k) :
    lookup (delKey m k) u = lookup m u := by
  induction m with
  | nil => simp [delKey]
  | cons p rest ih =>
    obtain ⟨k0, v0⟩ := p
    by_cases h : k0 = k
    · subst h
      simp [delKey, lookup, Ne.symm hne, ih]
    · simp [delKey, lookup, h, ih]

lemma notify_map_fst (e : Event) :
    ∀ l : List Subscription,
      (notifySubscribers l e).map Prod.fst = l.filter (eligible e)
  | [] => rfl
  | sub :: rest => by
    cases hpf : sub.priority_filter with
    | none =>
      simp [notifySubscribers, hpf, eligible, invoke, notify_map_fst e rest,
        List.filter_cons]
    | some f =>
      by_cases hgt : e.priority.val > f.val
      · simp [notifySubscribers, hpf, eligible, hgt, notify_map_fst e rest,
          List.filter_cons]
      · simp [notifySubscribers, hpf, eligible, hgt, invoke, notify_map_fst e rest,
          List.filter_cons]

lemma eligible_eq_true_iff (e : Event) (sub : Subscription) :
    eligible e sub = true ↔
      ∀ f, sub.priority_filter = some f → e.priority.val ≤ f.val := by
  cases hpf : sub.priority_filter with
  | none => simp [eligible, hpf]
  | some f => simp [eligible, hpf, Nat.not_lt]

lemma submit_request_processing_active (s : CortexState) (req : CortexRequest) :
    (submit_request s req).1.processing_active = s.processing_active := by
  unfold submit_request interrupt_current
  repeat' split
  all_goals rfl

lemma worker_step_inactive (handlers : CortexMode → CortexRequest → HandlerResult)
    (elapsed : Nat) (s : CortexState) (h : s.processing_active = false) :
    worker_step handlers elapsed s = s := by
  unfold worker_step
  rw [h]
  simp

lemma speak_interrupt_voice_queue (s : VoiceState) (p : VoicePriority) :
    (speak_interrupt s p).voice_queue = s.voice_queue := by
  unfold speak_interrupt
  repeat' split
  all_goals rfl

lemma recordHistory_bound (hist : List Event) (e : Event)
    (hlen : hist.length ≤ 1000) : (recordHistory hist 1000 e).length ≤ 1000 := by
  unfold recordHistory
  by_cases hc : 1000 < (hist ++ [e]).length
  · rw [if_pos hc]
    simp
    omega
  · rw [if_neg hc]
    simp at hc ⊢
    omega

lemma recordHistory_getLast (hist : List Event) (e : Event) :
    (recordHistory hist 1000 e).getLast? = some e := by
  unfold recordHistory
  by_cases hc : 1000 < (hist ++ [e]).length
  · rw [if_pos hc]
    cases hist with
    | nil => simp at hc
    | cons a rest => simp [List.getLast?_concat]
  · rw [if_neg hc]
    simp [List.getLast?_concat]

lemma recordHistory_evict (hist : List Event) (e : Event)
    (hfull : hist.length = 1000) : recordHistory hist 1000 e = hist.tail ++ [e] := by
  unfold recordHistory
  have hc : 1000 < (hist ++ [e]).length := by simp [hfull]
  rw [if_pos hc]
  cases hist with
  | nil => simp at hfull
  | cons a rest => simp

/-- Claim C1.  The claim states that dequeue returns tasks grouped by
priority class and, within an equal-priority group, in strict
submission order, with ties broken by a monotonically increasing
sequence counter rather than wall-clock timestamps alone.  The code has
no sequence counter: CortexRequest.__lt__ and the voice queue triples
break ties by wall-clock timestamp only, so when timestamps collide at
clock resolution the four equal requests r1, r2, r3, r4 submitted in
that order come back from the CPython heap as r1, r3, r2, r4, violating
submission order. -/
theorem C1_tie_break_dequeue_order :
    popAll cortexLt 4 (pushAll cortexLt []
      [tiedRequest "r1", tiedRequest "r2", tiedRequest "r3", tiedRequest "r4"]) =
      [tiedRequest "r1", tiedRequest "r3", tiedRequest "r2", tiedRequest "r4"] ∧
    [tiedRequest "r1", tiedRequest "r3", tiedRequest "r2", tiedRequest "r4"] ≠
      [tiedRequest "r1", tiedRequest "r2", tiedRequest "r3", tiedRequest "r4"] := by
  exact ⟨by decide, by decide⟩

/-- Claim C2.  Submitting a CRISIS-priority request while a request of
strictly lower priority is in flight clears the is_processing flag (the
interruption signal of _interrupt_current) and increments the
crisis_interventions preemption counter by exactly one; submitting a
CRISIS request while another CRISIS request is in flight, or while the
dispatcher is idle, leaves the counter unchanged. -/
theorem C2_crisis_preemption_counter (s : CortexState) (req : CortexRequest)
    (hreq : req.priority = CortexPriority.CRISIS) :
    (∀ c : CortexRequest, s.is_processing = true → s.current_request = some c →
      c.priority ≠ CortexPriority.CRISIS →
      (submit_request s req).1.crisis_interventions = s.crisis_interventions + 1 ∧
      (submit_request s req).1.is_processing = false) ∧
    (∀ c : CortexRequest, s.current_request = some c →
      c.priority = CortexPriority.CRISIS →
      (submit_request s req).1.crisis_interventions = s.crisis_interventions) ∧
    (s.is_processing = false →
      (submit_request s req).1.crisis_interventions = s.crisis_interventions) := by
  refine ⟨?_, ?_, ?_⟩
  · intro c hip hcur hne
    constructor
    · simp [submit_request, hreq, hip, hcur, hne, interrupt_current]
    · simp [submit_request, hreq, hip, hcur, hne, interrupt_current]
  · intro c hcur hcrit
    cases hip : s.is_processing
    · simp [submit_request, hreq, hip, hcur]
    · simp [submit_request, hreq, hip, hcur, hcrit]
  · intro hip
    simp [submit_request, hreq, hip]

/-- Claim C2, witness: with a NORMAL-priority request in flight and the
counter at zero, submitting a CRISIS request sets the counter to one
and clears the is_processing flag. -/
theorem C2_crisis_preemption_counter_witness :
    (submit_request
      { initCortexState with
          is_processing := true
          current_request := some (tiedRequest "busy") }
      { request_id := "crisis1", priority := CortexPriority.CRISIS
        mode := CortexMode.CRISIS, content := [], callback := none
        timestamp := 7 }).1.crisis_interventions = 1 ∧
    (submit_request
      { initCortexState with
          is_processing := true
          current_request := some (tiedRequest "busy") }
      { request_id := "crisis1", priority := CortexPriority.CRISIS
        mode := CortexMode.CRISIS, content := [], callback := none
        timestamp := 7 }).1.is_processing = false := by
  have h := (C2_crisis_preemption_counter
    { initCortexState with
        is_processing := true
        current_request := some (tiedRequest "busy") }
    { request_id := "crisis1", priority := CortexPriority.CRISIS
      mode := CortexMode.CRISIS, content := [], callback := none
      timestamp := 7 } rfl).1 (tiedRequest "busy") rfl rfl (by decide)
  simpa using h

/-- Claim C4, counterexample.  The claim states that a submit after
shutdown fails with a QueueClosed signal and does not report success;
in the code submit_request has no closed-queue check: after shutdown it
still returns True and the request is placed on the queue. -/
theorem C4_submit_after_shutdown :
    (submit_request (cortexShutdown initCortexState) (tiedRequest "late")).2 = true ∧
    (submit_request (cortexShutdown initCortexState) (tiedRequest "late")).1.request_queue =
      [tiedRequest "late"] := by
  exact ⟨rfl, by decide⟩

/-- Claim C4, amended.  After shutdown, submit_request still returns True
and enqueues the task; but shutdown clears processing_active, the
worker loop condition, so no further iteration of the worker loop runs:
the state reached after submitting to a shut-down dispatcher is a fixed
point of the worker step, hence no task enqueued after shutdown is ever
dequeued or processed. -/
theorem C4_shutdown_stops_processing (s : CortexState) (r : CortexRequest)
    (handlers : CortexMode → CortexRequest → HandlerResult) (elapsed n : Nat) :
    (submit_request (cortexShutdown s) r).2 = true ∧
    (worker_step handlers elapsed)^[n] ((submit_request (cortexShutdown s) r).1) =
      (submit_request (cortexShutdown s) r).1 := by
  have hact : ((submit_request (cortexShutdown s) r).1).processing_active = false := by
    rw [submit_request_processing_active]
    rfl
  refine ⟨rfl, ?_⟩
  induction n with
  | zero => rfl
  | succ k ih =>
    rw [Function.iterate_succ_apply, worker_step_inactive _ _ _ hact, ih]

/-- Handler table in which the request with id "boom" raises and every
other request succeeds with an empty result dict. -/
def failingHandlers : CortexMode → CortexRequest → HandlerResult :=
  fun _ r =>
    if r.request_id = "boom" then HandlerResult.raises "handler error"
    else HandlerResult.ok { entries := [], modules_used := [] }

/-- A NORMAL request whose handler raises and which supplies a callback. -/
def boomRequest : CortexRequest :=
  { request_id := "boom"
    priority := CortexPriority.NORMAL
    mode := CortexMode.LEARNING
    content := []
    callback := some ()
    timestamp := 3 }

/-- A NORMAL request whose handler succeeds and which supplies a callback. -/
def okRequest : CortexRequest :=
  { request_id := "ok1"
    priority := CortexPriority.NORMAL
    mode := CortexMode.LEARNING
    content := []
    callback := some ()
    timestamp := 4 }

/-- Claim C3, counterexample.  The claim states that a raising handler is
converted into a failed result with success false delivered to the
supplied callback.  In the code the except clause of _process_request
only logs: no CortexResponse is built on the failure path and the
callback receives nothing, so no success=false response exists for the
raising request below even though it supplies a callback. -/
theorem C3_no_failure_result :
    ¬ ∃ resp : CortexResponse,
        (process_request initCortexState boomRequest failingHandlers 5).2 = some resp ∧
        resp.success = false := by
  rintro ⟨resp, hr, _⟩
  have hnone : (process_request initCortexState boomRequest failingHandlers 5).2 = none := by
    rfl
  rw [hnone] at hr
  exact Option.noConfusion hr

/-- Claim C3, amended.  The worker loop catches a raising handler: the
request produces no response (nothing is delivered to its callback,
and in particular no success=false result), the in-flight flags are
cleared by the finally clause, and processing continues, so a
subsequently processed request whose handler succeeds still gets a
success=true response with its own request id. -/
theorem C3_handler_failure_contained (s : CortexState) (r1 r2 : CortexRequest)
    (handlers : CortexMode → CortexRequest → HandlerResult) (e1 e2 : Nat)
    (msg : String) (d : HandlerData)
    (h1 : handlers r1.mode r1 = HandlerResult.raises msg)
    (h2 : handlers r2.mode r2 = HandlerResult.ok d)
    (hcb : r2.callback.isSome = true) :
    (process_request s r1 handlers e1).2 = none ∧
    (process_request s r1 handlers e1).1.is_processing = false ∧
    ∃ resp : CortexResponse,
      (process_request (process_request s r1 handlers e1).1 r2 handlers e2).2 = some resp ∧
      resp.success = true ∧ resp.request_id = r2.request_id := by
  refine ⟨?_, ?_, ?_⟩
  · simp [process_request, h1]
  · simp [process_request, h1]
  · refine ⟨{ request_id := r2.request_id, success := true, data := d,
              processing_time := e2, modules_involved := d.modules_used }, ?_, rfl, rfl⟩
    simp [process_request, h1, h2, hcb]

/-- Claim C3, witness: the raising request "boom" yields no response and
the subsequent request "ok1" is still processed with success true. -/
theorem C3_handler_failure_contained_witness :
    (process_request initCortexState boomRequest failingHandlers 5).2 = none ∧
    (process_request initCortexState boomRequest failingHandlers 5).1.is_processing = false ∧
    ∃ resp : CortexResponse,
      (process_request (process_request initCortexState boomRequest failingHandlers 5).1
        okRequest failingHandlers 6).2 = some resp ∧
      resp.success = true ∧ resp.request_id = okRequest.request_id :=
  C3_handler_failure_contained initCortexState boomRequest okRequest failingHandlers 5 6
    "handler error" { entries := [], modules_used := [] } (by rfl) (by rfl) (by rfl)

/-- Claim C5.  When an event is processed, a subscription is among the
notified ones exactly when it is registered under the event type or
under the wildcard "*", and its priority_filter, when set, admits the
event (the event priority value is at most the filter value, i.e. the
event is at least as urgent). -/
theorem C5_subscriber_fanout (s : BusState) (e : Event) (sub : Subscription) :
    sub ∈ (process_event s e).2.map Prod.fst ↔
      (sub ∈ (lookup s.subscriptions e.event_type).getD [] ∨
       sub ∈ (lookup s.subscriptions "*").getD []) ∧
      ∀ f, sub.priority_filter = some f → e.priority.val ≤ f.val := by
  show sub ∈ (notifySubscribers (subscribersFor s.subscriptions e.event_type) e).map
      Prod.fst ↔ _
  rw [notify_map_fst, List.mem_filter]
  exact and_congr (by simp [subscribersFor]) (eligible_eq_true_iff e sub)

/-- Callback that always returns normally. -/
def cbAlways : Event → Except String Unit := fun _ => Except.ok ()

/-- The subscriber fan-out example of the spec: A subscribes to "danger"
with no priority filter, B subscribes to "*" with filter HIGH. -/
def subMapAB : SubMap :=
  (subscribe (subscribe [] "danger" cbAlways "A" none).1
    "*" cbAlways "B" (some EventPriority.HIGH)).1

/-- A NORMAL-priority "danger" event. -/
def dangerEvent : Event :=
  { event_type := "danger"
    priority := EventPriority.NORMAL
    source_module := "behavioral_capture"
    data := []
    timestamp := 1
    event_id := "e1"
    correlation_id := none }

/-- Bus state holding the two example subscriptions. -/
def busAB : BusState := { initBusState with subscriptions := subMapAB }

/-- Claim C5, witness: processing the NORMAL "danger" event notifies the
subscription of A (registered for "danger" with no filter). -/
theorem C5_subscriber_fanout_witness :
    ({ event_type := "danger", callback := cbAlways, subscriber_id := "A"
       priority_filter := none } : Subscription) ∈
      (process_event busAB dangerEvent).2.map Prod.fst := by
  refine (C5_subscriber_fanout busAB dangerEvent _).mpr ⟨Or.inl ?_, ?_⟩
  · have ht : dangerEvent.event_type = "danger" := rfl
    have hl : lookup busAB.subscriptions "danger" =
        some [{ event_type := "danger", callback := cbAlways, subscriber_id := "A"
                priority_filter := none }] := by rfl
    rw [ht, hl]
    exact List.mem_singleton.mpr rfl
  · intro f hf
    exact Option.noConfusion hf

/-- Matching subscription count: how many subscriptions under the event
type carry the given subscriber_id. -/
def countPair (m : SubMap) (event_type subscriber_id : String) : Nat :=
  ((lookup m event_type).getD []).countP
    (fun sub => decide (sub.subscriber_id = subscriber_id))

/-- Claim C6, counterexample.  The claim states that the
(subscriber_id, event_type) pair identifies at most one subscription,
re-subscription replacing the prior entry.  The code appends
unconditionally: subscribing "voice" to "danger" twice leaves two
subscriptions with that pair. -/
theorem C6_duplicate_subscription :
    ¬ (countPair
        (subscribe (subscribe [] "danger" cbAlways "voice" none).1
          "danger" cbAlways "voice" none).1
        "danger" "voice" ≤ 1) := by
  decide

/-- Claim C6, amended.  subscribe appends a fresh Subscription to the list
for its event type unconditionally, so each re-subscription with the
same subscriber_id and event_type increases the number of
subscriptions carrying that pair by one; the pair is not kept unique
and no replacement happens. -/
theorem C6_subscribe_appends (m : SubMap) (t sid : String)
    (cb : Event → Except String Unit) (pf : Option EventPriority) :
    countPair (subscribe m t cb sid pf).1 t sid = countPair m t sid + 1 := by
  simp [countPair, subscribe, lookup_setKey_self, List.countP_append]

/-- Claim C7.  Processing an event appends it to the event history (it
becomes the last entry), the history length never exceeds the
configured maximum of 1000 entries, on overflow exactly the oldest
entry is evicted (FIFO), and publish itself leaves the history
untouched (the append happens when the worker loop processes the
event). -/
theorem C7_history_bounded (s : BusState) (e : Event)
    (hmax : s.max_history = 1000) (hlen : s.event_history.length ≤ 1000) :
    ((process_event s e).1.event_history.length ≤ 1000) ∧
    ((process_event s e).1.event_history.getLast? = some e) ∧
    (s.event_history.length = 1000 →
      (process_event s e).1.event_history = s.event_history.tail ++ [e]) ∧
    (∀ t src d p cid ts uuid,
      (publish s t src d p cid ts uuid).1.event_history = s.event_history) := by
  have hrec : (process_event s e).1.event_history =
      recordHistory s.event_history s.max_history e := rfl
  rw [hrec, hmax]
  exact ⟨recordHistory_bound s.event_history e hlen,
    recordHistory_getLast s.event_history e,
    fun hfull => recordHistory_evict s.event_history e hfull,
    fun t src d p cid ts uuid => rfl⟩

/-- Claim C7, witness: processing the example event on the freshly
initialised bus keeps the history within the bound and ends it with
the event. -/
theorem C7_history_bounded_witness :
    ((process_event initBusState dangerEvent).1.event_history.length ≤ 1000) ∧
    ((process_event initBusState dangerEvent).1.event_history.getLast? =
      some dangerEvent) := by
  have h := C7_history_bounded initBusState dangerEvent rfl (by decide)
  exact ⟨h.1, h.2.1⟩

/-- Claim C8.  The notification loop catches each subscriber exception
inside the per-subscriber try/except, so the sequence of invoked
subscriptions is exactly the eligible ones, independent of whether any
callback raises (a raising callback removes no other subscriber from
the delivery); and publish returns the event id unconditionally, so a
later subscriber failure cannot affect the publisher's reported
success. -/
theorem C8_subscriber_isolation :
    (∀ (s : BusState) (e : Event),
      (process_event s e).2.map Prod.fst =
        (subscribersFor s.subscriptions e.event_type).filter (eligible e)) ∧
    (∀ (s : BusState) (t src : String) (d : List (String × String))
      (p : EventPriority) (cid : Option String) (ts : Nat) (uuid : String),
      (publish s t src d p cid ts uuid).2 = uuid) := by
  constructor
  · intro s e
    exact notify_map_fst e _
  · intro s t src d p cid ts uuid
    rfl

/-- Claim C10.  unsubscribe always returns True (also when nothing
matched); under the given event type every subscription whose
subscriber_id matches is removed, the key disappearing when the
filtered list is empty; and the entries of every other event type are
untouched. -/
theorem C10_unsubscribe_spec (m : SubMap) (t sid : String) :
    (unsubscribe m t sid).2 = true ∧
    lookup (unsubscribe m t sid).1 t =
      (match lookup m t with
       | none => none
       | some l =>
         let l2 := l.filter (fun sub => decide (sub.subscriber_id ≠ sid))
         if l2.isEmpty then none else some l2) ∧
    (∀ u, u ≠ t → lookup (unsubscribe m t sid).1 u = lookup m u) := by
  cases hl : lookup m t with
  | none =>
    exact ⟨by simp [unsubscribe, hl], by simp [unsubscribe, hl],
      fun u hu => by simp [unsubscribe, hl]⟩
  | some l =>
    by_cases hemp : (l.filter (fun sub => decide (sub.subscriber_id ≠ sid))).isEmpty = true
    · refine ⟨?_, ?_, ?_⟩
      · simp only [unsubscribe, hl]
        rw [if_pos hemp]
      · simp only [unsubscribe, hl]
        rw [if_pos hemp, if_pos hemp]
        exact lookup_delKey_self m t
      · intro u hu
        simp only [unsubscribe, hl]
        rw [if_pos hemp]
        exact lookup_delKey_ne m t u hu
    · refine ⟨?_, ?_, ?_⟩
      · simp only [unsubscribe, hl]
        rw [if_neg hemp]
      · simp only [unsubscribe, hl]
        rw [if_neg hemp, if_neg hemp]
        exact lookup_setKey_self m t _
      · intro u hu
        simp only [unsubscribe, hl]
        rw [if_neg hemp]
        exact lookup_setKey_ne m t u _ hu

/-- Claim C10, witness: unsubscribing "voice" from "danger" on a map that
holds that one subscription returns True and leaves the entries of the
unrelated type "other" unchanged. -/
theorem C10_unsubscribe_spec_witness :
    (unsubscribe (subscribe [] "danger" cbAlways "voice" none).1 "danger" "voice").2 = true ∧
    lookup (unsubscribe (subscribe [] "danger" cbAlways "voice" none).1
      "danger" "voice").1 "other" =
      lookup (subscribe [] "danger" cbAlways "voice" none).1 "other" :=
  ⟨(C10_unsubscribe_spec (subscribe [] "danger" cbAlways "voice" none).1 "danger" "voice").1,
   (C10_unsubscribe_spec (subscribe [] "danger" cbAlways "voice" none).1 "danger" "voice").2.2
     "other" (by decide)⟩

/-- Claim C9.  speak returns True exactly when voice output is enabled
and the text is not empty nor whitespace-only; when it returns False
the state (in particular the voice queue) is unchanged, and when it
returns True exactly one triple (priority value, timestamp, request)
is appended to the voice queue. -/
theorem C9_speak_guards (s : VoiceState) (text : String) (p : VoicePriority)
    (emotion : String) (speed ts : Nat) :
    ((speak s text p emotion speed ts).2 = true ↔
      (s.enabled = true ∧ text.data.all pyIsSpace = false)) ∧
    ((speak s text p emotion speed ts).2 = false → (speak s text p emotion speed ts).1 = s) ∧
    ((speak s text p emotion speed ts).2 = true →
      (speak s text p emotion speed ts).1.voice_queue =
        s.voice_queue ++ [(p.val, ts,
          { text := text, priority := p, emotion := emotion
            speed := speed, timestamp := ts })]) := by
  cases he : s.enabled with
  | false => simp [speak, he]
  | true =>
    cases hb : text.data.all pyIsSpace with
    | true => simp [speak, he, hb]
    | false =>
      refine ⟨by simp [speak, he, hb], ?_, ?_⟩
      · intro hfalse
        simp [speak, he, hb] at hfalse
      · intro _
        simp [speak, he, hb, speak_interrupt_voice_queue]

/-- Claim C9, witness: with voice enabled and a non-blank text, speak
returns True. -/
theorem C9_speak_guards_witness :
    (speak
      { voice_queue := [], is_speaking := false, current_request := none
        enabled := true, total_spoken := 0, crisis_interruptions := 0
        processing := true }
      "hello" VoicePriority.NORMAL "supportive" 95 12).2 = true := by
  exact (C9_speak_guards
    { voice_queue := [], is_speaking := false, current_request := none
      enabled := true, total_spoken := 0, crisis_interruptions := 0
      processing := true }
    "hello" VoicePriority.NORMAL "supportive" 95 12).1.mpr ⟨rfl, by decide⟩
